import Mathlib

/-!
Verification of the tie-dye generator core (fold stack, dye model, unfolder).

The JavaScript sources are shallowly embedded as Lean functions:
  * `ColorManager.js`   → `rgbToCmy`, `cmyToRgb`, `mixColors`, `blendLayers`
  * `DyePhysics.js`     → `applyDye`, `renderDyePoint`, `mixDyesAtPoint`,
                          `calculateIntensityAtPoint`
  * `FoldingEngine.js`  → `createFold` and friends, `updateLayers`,
                          `applyFold`, `undo`, `redo`, `clear`
  * `PatternGenerator.js` → `unfoldPattern`, `applyUnfoldTransform` and the
                          per-family transforms
  * `TShirtCanvas.js`   → `shirtBody` (the printable body rectangle)

JavaScript numbers are modelled as `ℚ` (the sole genuine square root, in the
layer attenuation law, is modelled over `ℝ` with `Real.sqrt`).  The repository
file `js/config/constants.js` is not part of the sources, so the numeric
configuration (`SHIRT_CONFIG`, `FOLD_CONFIG`) is kept as an explicit parameter
of every definition that reads it.  Likewise `js/modules/utils.js` is absent:
its Euclidean `distance` helper, and the browser primitives `Math.random`,
`Math.cos`, `Math.sin`, are kept abstract as oracle parameters; every theorem
below is proved for an arbitrary oracle.
-/

namespace TieDye

/-- JavaScript `Math.round`: round half toward positive infinity,
`Math.round(x) = ⌊x + 1/2⌋`. -/
def jround (q : ℚ) : ℤ := ⌊q + 1/2⌋

/-- An RGB triple.  Channels produced by the code are always integers
(`Math.round` outputs), so they are carried as `ℤ`. -/
structure Color where
  r : ℤ
  g : ℤ
  b : ℤ
deriving DecidableEq, Repr

/-- A CMY triple in complement space (`ColorManager.rgbToCmy` output). -/
structure Cmy where
  c : ℚ
  m : ℚ
  y : ℚ
deriving DecidableEq, Repr

/-- `ColorManager.rgbToCmy`. -/
def rgbToCmy (rgb : Color) : Cmy :=
  { c := 1 - (rgb.r : ℚ) / 255
    m := 1 - (rgb.g : ℚ) / 255
    y := 1 - (rgb.b : ℚ) / 255 }

/-- `ColorManager.cmyToRgb`. -/
def cmyToRgb (cmy : Cmy) : Color :=
  { r := jround ((1 - cmy.c) * 255)
    g := jround ((1 - cmy.m) * 255)
    b := jround ((1 - cmy.y) * 255) }

/-- `ColorManager.mixColors`: subtractive mixing, interpolating in CMY space. -/
def mixColors (color1 color2 : Color) (ratio : ℚ) : Color :=
  let cmy1 := rgbToCmy color1
  let cmy2 := rgbToCmy color2
  let mixedCmy : Cmy :=
    { c := cmy1.c * (1 - ratio) + cmy2.c * ratio
      m := cmy1.m * (1 - ratio) + cmy2.m * ratio
      y := cmy1.y * (1 - ratio) + cmy2.y * ratio }
  cmyToRgb mixedCmy

/-- One entry of the `layers` argument of `ColorManager.blendLayers`. -/
structure DyeLayer where
  color : Color
  intensity : ℚ
deriving DecidableEq, Repr

/-- The pure white RGB triple returned where no dye reaches. -/
def whiteColor : Color := { r := 255, g := 255, b := 255 }

/-- `ColorManager.blendLayers`: fold the layers pairwise through `mixColors`,
starting from the first layer's color, using each later layer's intensity as
the mix ratio. -/
def blendLayers : List DyeLayer → Color
  | [] => whiteColor
  | [l] => l.color
  | l :: rest => rest.foldl (fun result layer => mixColors result layer.color layer.intensity) l.color

/-! ## Dye model (`DyePhysics.js`) -/

/-- One recorded dye application (`DyePhysics.applyDye` object literal; the
`timestamp` field is wall-clock bookkeeping and carries no simulation
content, so it is omitted). -/
structure DyePoint where
  x : ℚ
  y : ℚ
  color : Color
  intensity : ℚ
  radius : ℚ
  layerCount : ℕ
deriving DecidableEq, Repr

/-- One entry of the folding engine's derived `layers` array
(`FoldingEngine.updateLayers`). -/
structure Layer where
  index : ℕ
  opacity : ℚ
deriving DecidableEq, Repr

/-- `DyePhysics.applyDye`: record a dye point, snapshotting the layer count
as `Math.max(1, layers.length)` from the folding engine's current `layers`. -/
def applyDye (x y : ℚ) (color : Color) (intensity radius : ℚ)
    (layers : List Layer) : DyePoint :=
  { x := x, y := y, color := color, intensity := intensity, radius := radius
    layerCount := max 1 layers.length }

/-- A distance oracle standing in for `utils.distance` (the file defining it
is not among the sources; the spec only requires "the distance from the query
to a point's position").  All theorems hold for an arbitrary oracle. -/
abbrev DistFn := ℚ → ℚ → ℚ → ℚ → ℚ

/-- `DyePhysics.calculateIntensityAtPoint`: distance-linear intensity
falloff `intensity * max(0, 1 - dist/radius)`. -/
def calculateIntensityAtPoint (dist : DistFn) (x y : ℚ) (dyePoint : DyePoint) : ℚ :=
  let d := dist x y dyePoint.x dyePoint.y
  let normalizedDist := d / dyePoint.radius
  dyePoint.intensity * max 0 (1 - normalizedDist)

/-- The filter from `DyePhysics.mixDyesAtPoint`: all recorded dye points whose
radius covers the queried position. -/
def affectingDyes (dist : DistFn) (dyePoints : List DyePoint) (x y : ℚ) : List DyePoint :=
  dyePoints.filter (fun point => dist x y point.x point.y ≤ point.radius)

/-- `DyePhysics.mixDyesAtPoint`: white when no dye point covers the position,
otherwise `blendLayers` over the covering dye points taken in recorded order,
each weighted by its distance falloff. -/
def mixDyesAtPoint (dist : DistFn) (dyePoints : List DyePoint) (x y : ℚ) : Color :=
  let affecting := affectingDyes dist dyePoints x y
  if affecting = [] then
    whiteColor
  else
    blendLayers (affecting.map (fun point =>
      { color := point.color, intensity := calculateIntensityAtPoint dist x y point }))

/-- `DyePhysics.renderDyePoint` attenuation:
`effectiveIntensity = intensity / Math.sqrt(layerCount)`. -/
noncomputable def effectiveIntensity (intensity : ℚ) (layerCount : ℕ) : ℝ :=
  (intensity : ℝ) / Real.sqrt (layerCount : ℝ)

/-- The radial-gradient draw call issued by `DyePhysics.renderDyePoint`
(color stops at offsets 0, 0.7 and 1 with alphas `a`, `a/2`, `0`). -/
structure RadialRender where
  x : ℝ
  y : ℝ
  color : Color
  radius : ℝ
  centerAlpha : ℝ
  midAlpha : ℝ

/-- `DyePhysics.renderDyePoint`: the draw call for one dye point, with
`alpha = (effectiveIntensity / 100) * 0.8`. -/
noncomputable def renderDyePoint (dyePoint : DyePoint) : RadialRender :=
  let eff := effectiveIntensity dyePoint.intensity dyePoint.layerCount
  let alpha := eff / 100 * 0.8
  { x := (dyePoint.x : ℝ), y := (dyePoint.y : ℝ), color := dyePoint.color
    radius := (dyePoint.radius : ℝ), centerAlpha := alpha, midAlpha := alpha * 0.5 }

/-! ## Fold stack (`FoldingEngine.js`) -/

/-- A 2D point in garment-local coordinates. -/
structure Point where
  x : ℚ
  y : ℚ
deriving DecidableEq, Repr

/-- A crease line segment (`calculateAccordionLines` output). -/
structure Line where
  x1 : ℚ
  y1 : ℚ
  x2 : ℚ
  y2 : ℚ
deriving DecidableEq, Repr

/-- The four fold families (`FOLD_TYPES`, a closed set). -/
inductive FoldKind where
  | accordion
  | spiral
  | crumple
  | diagonal
deriving DecidableEq, Repr

/-- Accordion fold direction. -/
inductive Direction where
  | horizontal
  | vertical
deriving DecidableEq, Repr

/-- The `SHIRT_CONFIG` constants.  `js/config/constants.js` is not among the
sources, so the four numbers are kept as parameters. -/
structure ShirtConfig where
  centerX : ℚ
  centerY : ℚ
  width : ℚ
  height : ℚ
deriving DecidableEq, Repr

/-- The `FOLD_CONFIG` constants (same remark as `ShirtConfig`). -/
structure FoldConfig where
  maxLayers : ℕ
  layerOpacityStep : ℚ
deriving DecidableEq, Repr

/-- The printable body rectangle of the garment
(`TShirtCanvas.createShirtGeometry`, `body` field). -/
structure BodyRect where
  x : ℚ
  y : ℚ
  width : ℚ
  height : ℚ
deriving DecidableEq, Repr

/-- `TShirtCanvas.createShirtGeometry().body`: the printable body spans the
full configured width but only `HEIGHT - 80` of the configured height,
starting 80 below the configured top. -/
def shirtBody (cfg : ShirtConfig) : BodyRect :=
  { x := cfg.centerX - cfg.width / 2
    y := cfg.centerY - cfg.height / 2 + 80
    width := cfg.width
    height := cfg.height - 80 }

/-- One applied fold (the object literals built by `createAccordionFold`,
`createSpiralFold`, `createCrumpleFold`, `createDiagonalFold`).  JavaScript
objects are duck-typed, so the families share one flat structure; fields not
set by a family keep their defaults. -/
structure Fold where
  kind : FoldKind
  direction : Direction := .horizontal
  numFolds : ℕ := 0
  lines : List Line := []
  centerX : ℚ := 0
  centerY : ℚ := 0
  rotations : ℕ := 0
  points : List Point := []
  angle : ℚ := 0
  layerMultiplier : ℕ
deriving DecidableEq, Repr

/-- A placeholder fold used only for out-of-range list indexing. -/
def defaultFold : Fold := { kind := .accordion, layerMultiplier := 1 }

/-- The optional `params` object accepted by `FoldingEngine.applyFold`.
Counts are carried as `ℕ`, matching the integer values the UI supplies. -/
structure FoldParams where
  direction : Option Direction := none
  numFolds : Option ℕ := none
  centerX : Option ℚ := none
  centerY : Option ℚ := none
  rotations : Option ℕ := none
  points : Option (List Point) := none
  angle : Option ℚ := none

/-- JavaScript `params.n || d` on a numeric field: a missing value *or the
falsy number 0* both select the default. -/
def orDefaultNat (v : Option ℕ) (d : ℕ) : ℕ :=
  match v with
  | none => d
  | some 0 => d
  | some n => n

/-- JavaScript `params.q || d` on a numeric field, rational version. -/
def orDefaultQ (v : Option ℚ) (d : ℚ) : ℚ :=
  match v with
  | none => d
  | some q => if q = 0 then d else q

/-- `FoldingEngine.calculateAccordionLines`: `numFolds` crease lines at
`spacing * i` (`i = 1..numFolds`) below/right of the printable body origin,
where the horizontal spacing divides the *full* configured `HEIGHT` and the
vertical spacing divides the configured `WIDTH`. -/
def calculateAccordionLines (cfg : ShirtConfig) (direction : Direction)
    (numFolds : ℕ) : List Line :=
  match direction with
  | .horizontal =>
      let spacing := cfg.height / (numFolds + 1)
      let startY := cfg.centerY - cfg.height / 2 + 80
      (List.range numFolds).map (fun (j : ℕ) =>
        { x1 := cfg.centerX - cfg.width / 2
          y1 := startY + spacing * ((j : ℚ) + 1)
          x2 := cfg.centerX + cfg.width / 2
          y2 := startY + spacing * ((j : ℚ) + 1) })
  | .vertical =>
      let spacing := cfg.width / (numFolds + 1)
      let startX := cfg.centerX - cfg.width / 2
      let startY := cfg.centerY - cfg.height / 2 + 80
      (List.range numFolds).map (fun (j : ℕ) =>
        { x1 := startX + spacing * ((j : ℚ) + 1)
          y1 := startY
          x2 := startX + spacing * ((j : ℚ) + 1)
          y2 := startY + cfg.height - 80 })

/-- `FoldingEngine.createAccordionFold`. -/
def createAccordionFold (cfg : ShirtConfig) (params : FoldParams) : Fold :=
  let direction := params.direction.getD .horizontal
  let numFolds := orDefaultNat params.numFolds 3
  { kind := .accordion
    direction := direction
    numFolds := numFolds
    lines := calculateAccordionLines cfg direction numFolds
    layerMultiplier := numFolds }

/-- `FoldingEngine.createSpiralFold`. -/
def createSpiralFold (cfg : ShirtConfig) (params : FoldParams) : Fold :=
  { kind := .spiral
    centerX := orDefaultQ params.centerX cfg.centerX
    centerY := orDefaultQ params.centerY cfg.centerY
    rotations := orDefaultNat params.rotations 2
    layerMultiplier := orDefaultNat params.rotations 2 * 2 }

/-- `FoldingEngine.generateRandomCrumplePoints`: `count` points uniform over
the printable body.  `Math.random` is modelled by the draw oracle `rand`
(the `k`-th call returns `rand k`, meant to lie in `[0,1)`); each point
consumes two draws, first x then y, exactly as in the source loop. -/
def generateRandomCrumplePoints (cfg : ShirtConfig) (rand : ℕ → ℚ)
    (count : ℕ) : List Point :=
  (List.range count).map (fun i =>
    { x := cfg.centerX - cfg.width / 2 + rand (2 * i) * cfg.width
      y := cfg.centerY - cfg.height / 2 + 80 + rand (2 * i + 1) * (cfg.height - 80) })

/-- `FoldingEngine.createCrumpleFold`.  A supplied `points` array is used
as-is even when empty (`[] || d` keeps `[]`: arrays are truthy in
JavaScript); only a missing field triggers the five random points. -/
def createCrumpleFold (cfg : ShirtConfig) (rand : ℕ → ℚ) (params : FoldParams) : Fold :=
  let points := params.points.getD (generateRandomCrumplePoints cfg rand 5)
  { kind := .crumple
    points := points
    layerMultiplier := points.length }

/-- `FoldingEngine.createDiagonalFold`. -/
def createDiagonalFold (params : FoldParams) : Fold :=
  { kind := .diagonal
    angle := orDefaultQ params.angle 45
    layerMultiplier := 2 }

/-- `FoldingEngine.createFold`.  The fold kind is a closed enumeration, so
the `default: return null` arm of the source switch is unreachable here. -/
def createFold (cfg : ShirtConfig) (rand : ℕ → ℚ) (foldType : FoldKind)
    (params : FoldParams) : Fold :=
  match foldType with
  | .accordion => createAccordionFold cfg params
  | .spiral => createSpiralFold cfg params
  | .crumple => createCrumpleFold cfg rand params
  | .diagonal => createDiagonalFold params

/-- The running product `currentMultiplier` of `FoldingEngine.updateLayers`. -/
def stackProduct (folds : List Fold) : ℕ :=
  folds.foldl (fun currentMultiplier fold => currentMultiplier * fold.layerMultiplier) 1

/-- `FoldingEngine.updateLayers`: materialize
`min(currentMultiplier, MAX_LAYERS)` layers of decreasing opacity. -/
def updateLayers (fc : FoldConfig) (folds : List Fold) : List Layer :=
  (List.range (min (stackProduct folds) fc.maxLayers)).map (fun i =>
    { index := i, opacity := 1 - (i : ℚ) * fc.layerOpacityStep })

/-- The derived effective layer count of a fold stack: the product of the
fold multipliers clamped to the configured maximum (spec §3). -/
def effectiveLayerCount (fc : FoldConfig) (folds : List Fold) : ℕ :=
  min (stackProduct folds) fc.maxLayers

/-- The mutable state of a `FoldingEngine` (fold stack, redo buffer,
materialized layers). -/
structure EngineState where
  folds : List Fold
  undoStack : List Fold
  layers : List Layer
deriving DecidableEq, Repr

/-- The state set up by the `FoldingEngine` constructor. -/
def initialState : EngineState :=
  { folds := [], undoStack := [], layers := [] }

/-- `FoldingEngine.applyFold`: refuse when the materialized layer count has
reached `MAX_LAYERS`; otherwise append the new fold and recompute layers.
The redo buffer (`undoStack`) is not touched on either path. -/
def applyFold (cfg : ShirtConfig) (fc : FoldConfig) (rand : ℕ → ℚ)
    (s : EngineState) (foldType : FoldKind) (params : FoldParams) :
    Bool × EngineState :=
  if fc.maxLayers ≤ s.layers.length then
    (false, s)
  else
    let fold := createFold cfg rand foldType params
    let folds := s.folds ++ [fold]
    (true, { folds := folds, undoStack := s.undoStack, layers := updateLayers fc folds })

/-- `FoldingEngine.undo`: pop the most recent fold onto the redo buffer and
recompute layers; `false` on an empty stack. -/
def undo (fc : FoldConfig) (s : EngineState) : Bool × EngineState :=
  match s.folds.getLast? with
  | none => (false, s)
  | some fold =>
      let folds := s.folds.dropLast
      (true, { folds := folds, undoStack := s.undoStack ++ [fold]
               layers := updateLayers fc folds })

/-- `FoldingEngine.redo`: pop the most recent redo-buffer entry back onto the
stack and recompute layers; `false` on an empty buffer. -/
def redo (fc : FoldConfig) (s : EngineState) : Bool × EngineState :=
  match s.undoStack.getLast? with
  | none => (false, s)
  | some fold =>
      let folds := s.folds ++ [fold]
      (true, { folds := folds, undoStack := s.undoStack.dropLast
               layers := updateLayers fc folds })

/-- `FoldingEngine.clear`: empty both stacks and the layers array. -/
def clearFolds (_s : EngineState) : EngineState :=
  { folds := [], undoStack := [], layers := [] }

/-- One user-level operation on the folding engine.  An `applyOp` carries its
own `Math.random` draw oracle. -/
inductive Op where
  | applyOp (foldType : FoldKind) (params : FoldParams) (rand : ℕ → ℚ)
  | undoOp
  | redoOp
  | clearOp

/-- Run one operation on an engine state. -/
def step (cfg : ShirtConfig) (fc : FoldConfig) (s : EngineState) : Op → EngineState
  | .applyOp foldType params rand => (applyFold cfg fc rand s foldType params).2
  | .undoOp => (undo fc s).2
  | .redoOp => (redo fc s).2
  | .clearOp => clearFolds s

/-- Run a sequence of operations from the constructor state. -/
def run (cfg : ShirtConfig) (fc : FoldConfig) (ops : List Op) : EngineState :=
  ops.foldl (step cfg fc) initialState

/-! ## Unfolder (`PatternGenerator.js`)

Trigonometry is kept abstract: `cosT f` / `sinT f` stand for the cosine and
sine of the angle `2π·f` (so `f` is a fraction of a full turn — every angle
the source computes is a rational multiple of `2π`, letting the embedding stay
over `ℚ`).  `Math.random` inside the crumple transform is a per-fold oracle
`rand d k`: the `k`-th draw made while processing the dye point of index `d`. -/

/-- One `renderFinalPoint` draw call: position, color, the intensity passed in
and the brush radius (its alpha stops are `intensity/100*0.6` scaled as in
`renderDyePoint`). -/
structure RenderedPoint where
  x : ℚ
  y : ℚ
  color : Color
  intensity : ℚ
  radius : ℚ
deriving DecidableEq, Repr

/-- A dye point as first handed to `renderFinalPoint` (its own position,
color, intensity and radius). -/
def toRendered (p : DyePoint) : RenderedPoint :=
  { x := p.x, y := p.y, color := p.color, intensity := p.intensity, radius := p.radius }

/-- `PatternGenerator.mirrorPoint`: reflect across a crease line, flipping
only the coordinate perpendicular to the fold direction. -/
def mirrorPoint (x y : ℚ) (line : Line) (direction : Direction) : ℚ × ℚ :=
  match direction with
  | .horizontal => (x, line.y1 + (line.y1 - y))
  | .vertical => (line.x1 + (line.x1 - x), y)

/-- `PatternGenerator.renderPointWithSymmetry`: the original point followed by
its mirror image across each crease line of the fold. -/
def renderPointWithSymmetry (p : DyePoint) (lines : List Line)
    (direction : Direction) : List RenderedPoint :=
  toRendered p ::
    lines.map (fun line =>
      let mirrored := mirrorPoint p.x p.y line direction
      { x := mirrored.1, y := mirrored.2, color := p.color
        intensity := p.intensity, radius := p.radius })

/-- `PatternGenerator.unfoldAccordion`. -/
def unfoldAccordion (fold : Fold) (dyePoints : List DyePoint) : List RenderedPoint :=
  dyePoints.flatMap (fun p => renderPointWithSymmetry p fold.lines fold.direction)

/-- `PatternGenerator.rotatePoint` about `(centerX, centerY)`, given the
cosine and sine values of the rotation angle. -/
def rotatePoint (x y centerX centerY c s : ℚ) : ℚ × ℚ :=
  let dx := x - centerX
  let dy := y - centerY
  (centerX + dx * c - dy * s, centerY + dx * s + dy * c)

/-- `PatternGenerator.unfoldSpiral`: `rotations * 4` rotated copies of each
dye point, the `i`-th by the turn fraction `i / (rotations*4)`. -/
def unfoldSpiral (cosT sinT : ℚ → ℚ) (fold : Fold) (dyePoints : List DyePoint) :
    List RenderedPoint :=
  dyePoints.flatMap (fun p =>
    (List.range (fold.rotations * 4)).map (fun (i : ℕ) =>
      let frac := (i : ℚ) / ((fold.rotations : ℚ) * 4)
      let rotated := rotatePoint p.x p.y fold.centerX fold.centerY (cosT frac) (sinT frac)
      { x := rotated.1, y := rotated.2, color := p.color
        intensity := p.intensity, radius := p.radius }))

/-- `PatternGenerator.generateCrumpleVariations`: the point itself plus one
copy per crumple anchor, offset by `(rand - 0.5) * 40` on each axis. -/
def generateCrumpleVariations (rand : ℕ → ℚ) (p : DyePoint)
    (crumplePoints : List Point) : List RenderedPoint :=
  toRendered p ::
    (List.range crumplePoints.length).map (fun j =>
      { x := p.x + (rand (2 * j) - 1/2) * 40
        y := p.y + (rand (2 * j + 1) - 1/2) * 40
        color := p.color, intensity := p.intensity, radius := p.radius })

/-- `PatternGenerator.unfoldCrumple`: every variation is rendered at
`point.intensity * 0.7`. -/
def unfoldCrumple (rand : ℕ → ℕ → ℚ) (fold : Fold) (dyePoints : List DyePoint) :
    List RenderedPoint :=
  dyePoints.enum.flatMap (fun dp =>
    (generateCrumpleVariations (rand dp.1) dp.2 fold.points).map (fun varied =>
      { varied with intensity := dp.2.intensity * (7/10) }))

/-- `PatternGenerator.mirrorDiagonal`: reflect across the line through the
garment center at the fold angle, given cosine and sine of twice the angle. -/
def mirrorDiagonal (x y centerX centerY cos2 sin2 : ℚ) : ℚ × ℚ :=
  let dx := x - centerX
  let dy := y - centerY
  (centerX + dx * cos2 + dy * sin2, centerY + dx * sin2 - dy * cos2)

/-- `PatternGenerator.unfoldDiagonal`: the original plus its reflection; the
angle `a` in degrees gives the turn fraction `2a/360` for the doubled angle. -/
def unfoldDiagonal (cfg : ShirtConfig) (cosT sinT : ℚ → ℚ) (fold : Fold)
    (dyePoints : List DyePoint) : List RenderedPoint :=
  dyePoints.flatMap (fun p =>
    let frac := 2 * fold.angle / 360
    let mirrored := mirrorDiagonal p.x p.y cfg.centerX cfg.centerY (cosT frac) (sinT frac)
    [toRendered p,
     { x := mirrored.1, y := mirrored.2, color := p.color
       intensity := p.intensity, radius := p.radius }])

/-- `PatternGenerator.applyUnfoldTransform`: dispatch on the fold family.
Always called with the engine's *recorded* dye-point list. -/
def applyUnfoldTransform (cfg : ShirtConfig) (cosT sinT : ℚ → ℚ)
    (rand : ℕ → ℕ → ℚ) (fold : Fold) (dyePoints : List DyePoint) :
    List RenderedPoint :=
  match fold.kind with
  | .accordion => unfoldAccordion fold dyePoints
  | .spiral => unfoldSpiral cosT sinT fold dyePoints
  | .crumple => unfoldCrumple rand fold dyePoints
  | .diagonal => unfoldDiagonal cfg cosT sinT fold dyePoints

/-- The descending loop of `PatternGenerator.unfoldPattern`
(`for i = folds.length - 1; i >= 0; i--`), emitting the render calls of the
folds with index below `n`, highest index first.  `rands i` is the draw
oracle consumed while processing the fold at stack index `i`. -/
def unfoldLoop (cfg : ShirtConfig) (cosT sinT : ℚ → ℚ) (rands : ℕ → ℕ → ℕ → ℚ)
    (folds : List Fold) (dyePoints : List DyePoint) : ℕ → List RenderedPoint
  | 0 => []
  | n + 1 =>
      applyUnfoldTransform cfg cosT sinT (rands n) (folds.getD n defaultFold) dyePoints ++
        unfoldLoop cfg cosT sinT rands folds dyePoints n

/-- `PatternGenerator.unfoldPattern`: process every fold in reverse stack
order, each over the recorded dye points. -/
def unfoldPattern (cfg : ShirtConfig) (cosT sinT : ℚ → ℚ) (rands : ℕ → ℕ → ℕ → ℚ)
    (folds : List Fold) (dyePoints : List DyePoint) : List RenderedPoint :=
  unfoldLoop cfg cosT sinT rands folds dyePoints folds.length

/-- The copies one fold makes of one already-rendered point, per family
(used by the spec-side reading below; same per-family geometry as the code's
transforms, applied to an arbitrary rendered point). -/
def specFoldCopies (cfg : ShirtConfig) (cosT sinT : ℚ → ℚ) (rand : ℕ → ℚ)
    (fold : Fold) (q : RenderedPoint) : List RenderedPoint :=
  match fold.kind with
  | .accordion =>
      q :: fold.lines.map (fun line =>
        let mirrored := mirrorPoint q.x q.y line fold.direction
        { q with x := mirrored.1, y := mirrored.2 })
  | .spiral =>
      (List.range (fold.rotations * 4)).map (fun (i : ℕ) =>
        let frac := (i : ℚ) / ((fold.rotations : ℚ) * 4)
        let rotated := rotatePoint q.x q.y fold.centerX fold.centerY (cosT frac) (sinT frac)
        { q with x := rotated.1, y := rotated.2 })
  | .crumple =>
      { q with intensity := q.intensity * (7/10) } ::
        (List.range fold.points.length).map (fun j =>
          { q with x := q.x + (rand (2 * j) - 1/2) * 40
                   y := q.y + (rand (2 * j + 1) - 1/2) * 40
                   intensity := q.intensity * (7/10) })
  | .diagonal =>
      let frac := 2 * fold.angle / 360
      let mirrored := mirrorDiagonal q.x q.y cfg.centerX cfg.centerY (cosT frac) (sinT frac)
      [q, { q with x := mirrored.1, y := mirrored.2 }]

/-- Modelled from the spec (§4.3): "for each fold, in reverse stack order,
every already-accumulated rendered point set is transformed and re-rendered";
the accumulated set starts as the recorded dye points and each fold replaces
it by the copies it makes of every accumulated point, so symmetry copies
compound across folds.  This definition follows the spec's words and exists
only to be compared with `unfoldPattern`, the embedding of the source. -/
def specUnfoldCompound (cfg : ShirtConfig) (cosT sinT : ℚ → ℚ) (rand : ℕ → ℚ)
    (folds : List Fold) (dyePoints : List DyePoint) : List RenderedPoint :=
  (folds.reverse).foldl
    (fun acc fold => acc.flatMap (specFoldCopies cfg cosT sinT rand fold))
    (dyePoints.map toRendered)

/-! ## Verification-side definitions -/

/-- The engine maintains this relation between the materialized `layers` and
the fold stack: except in the constructor/cleared state (where `layers` is
left empty), `layers` is exactly `updateLayers` of the current stack. -/
def LayersConsistent (fc : FoldConfig) (s : EngineState) : Prop :=
  s.layers = updateLayers fc s.folds ∨ (s.folds = [] ∧ s.layers = [])

/-- An operation whose explicitly supplied crumple anchor-point list (if any)
is nonempty.  JavaScript treats a supplied empty array as truthy, so
`applyFold('crumple', { points: [] })` creates a fold of `layerMultiplier`
zero; this predicate excludes exactly those calls. -/
def CrumpleSafe : Op → Prop
  | .applyOp .crumple params _ => params.points ≠ some []
  | _ => True

/-- Every fold held anywhere in the engine has a positive layer multiplier. -/
def MultipliersPositive (s : EngineState) : Prop :=
  (∀ f ∈ s.folds, 1 ≤ f.layerMultiplier) ∧ (∀ f ∈ s.undoStack, 1 ≤ f.layerMultiplier)

/-! Concrete instances used by the witnesses and counterexamples below. -/

/-- A concrete (taxicab) instance of the distance oracle. -/
def witDist : DistFn := fun x y px py => |x - px| + |y - py|

/-- A red dye color. -/
def witRed : Color := { r := 255, g := 0, b := 0 }

/-- A blue dye color. -/
def witBlue : Color := { r := 0, g := 0, b := 255 }

/-- A dye point at the origin covering radius 30. -/
def witP1 : DyePoint :=
  { x := 0, y := 0, color := witRed, intensity := 80, radius := 30, layerCount := 1 }

/-- A second dye point near the origin covering radius 30. -/
def witP2 : DyePoint :=
  { x := 1, y := 0, color := witBlue, intensity := 50, radius := 30, layerCount := 1 }

/-- A dye point far from the origin with a small radius. -/
def witFar : DyePoint :=
  { x := 100, y := 100, color := witRed, intensity := 80, radius := 5, layerCount := 1 }

/-- The spec's scenario dye point: intensity 80 under a 4-layer snapshot. -/
def witP4 : DyePoint :=
  { x := 0, y := 0, color := witRed, intensity := 80, radius := 30, layerCount := 4 }

/-- A concrete shirt configuration (the constants file is not in `src`, so
counterexamples fix an explicit configuration). -/
def witCfg : ShirtConfig := { centerX := 0, centerY := 0, width := 100, height := 160 }

/-- A concrete fold configuration with cap 8. -/
def witFc : FoldConfig := { maxLayers := 8, layerOpacityStep := 1/10 }

/-- A concrete horizontal one-crease accordion fold (its single crease line
mirrors the y-coordinate about `y = 10`). -/
def witFoldH : Fold :=
  { kind := .accordion, direction := .horizontal, numFolds := 1,
    lines := [{ x1 := -50, y1 := 10, x2 := 50, y2 := 10 }], layerMultiplier := 1 }

/-- A concrete vertical one-crease accordion fold (its single crease line
mirrors the x-coordinate about `x = 20`). -/
def witFoldV : Fold :=
  { kind := .accordion, direction := .vertical, numFolds := 1,
    lines := [{ x1 := 20, y1 := 0, x2 := 20, y2 := 80 }], layerMultiplier := 1 }

/-- A concrete recorded dye point for the unfolder counterexample. -/
def witDp : DyePoint :=
  { x := 1, y := 2, color := witRed, intensity := 50, radius := 5, layerCount := 1 }

/-! ## Helper lemmas -/

lemma jround_intCast (n : ℤ) : jround (n : ℚ) = n := by
  unfold jround
  rw [Int.floor_eq_iff]
  constructor
  · linarith
  · linarith

lemma jround_eq_of_eq_intCast {q : ℚ} {n : ℤ} (h : q = (n : ℚ)) : jround q = n := by
  rw [h, jround_intCast]

lemma one_le_orDefaultNat (v : Option ℕ) (d : ℕ) (hd : 1 ≤ d) :
    1 ≤ orDefaultNat v d := by
  match v with
  | none => exact hd
  | some 0 => exact hd
  | some (n + 1) => exact Nat.succ_le_succ (Nat.zero_le n)

lemma one_le_createFold_layerMultiplier (cfg : ShirtConfig) (rand : ℕ → ℚ)
    (foldType : FoldKind) (params : FoldParams)
    (h : foldType = .crumple → params.points ≠ some []) :
    1 ≤ (createFold cfg rand foldType params).layerMultiplier := by
  cases foldType with
  | accordion =>
      simpa [createFold, createAccordionFold] using
        one_le_orDefaultNat params.numFolds 3 (by norm_num)
  | spiral =>
      have h1 : 1 ≤ orDefaultNat params.rotations 2 :=
        one_le_orDefaultNat params.rotations 2 (by norm_num)
      have h2 : 1 ≤ orDefaultNat params.rotations 2 * 2 :=
        le_trans h1 (Nat.le_mul_of_pos_right _ (by norm_num))
      simpa [createFold, createSpiralFold] using h2
  | crumple =>
      have hne := h rfl
      cases hp : params.points with
      | none =>
          simp [createFold, createCrumpleFold, hp, generateRandomCrumplePoints]
      | some l =>
          cases l with
          | nil => exact absurd hp hne
          | cons a as =>
              simp [createFold, createCrumpleFold, hp]
  | diagonal =>
      show 1 ≤ (2 : ℕ)
      norm_num

lemma one_le_stackProduct_aux (folds : List Fold) :
    ∀ init : ℕ, 1 ≤ init → (∀ f ∈ folds, 1 ≤ f.layerMultiplier) →
      1 ≤ folds.foldl (fun m fold => m * fold.layerMultiplier) init := by
  induction folds with
  | nil => intro init h _; simpa using h
  | cons f fs ih =>
      intro init h hall
      simp only [List.foldl_cons]
      exact ih (init * f.layerMultiplier)
        (Nat.one_le_iff_ne_zero.mpr (Nat.mul_ne_zero
          (Nat.one_le_iff_ne_zero.mp h)
          (Nat.one_le_iff_ne_zero.mp (hall f (List.mem_cons_self f fs)))))
        (fun g hg => hall g (List.mem_cons_of_mem f hg))

lemma one_le_stackProduct (folds : List Fold)
    (h : ∀ f ∈ folds, 1 ≤ f.layerMultiplier) : 1 ≤ stackProduct folds :=
  one_le_stackProduct_aux folds 1 le_rfl h

lemma layersConsistent_initial (fc : FoldConfig) :
    LayersConsistent fc initialState :=
  Or.inr ⟨rfl, rfl⟩

lemma layersConsistent_step (cfg : ShirtConfig) (fc : FoldConfig)
    (s : EngineState) (op : Op) (h : LayersConsistent fc s) :
    LayersConsistent fc (step cfg fc s op) := by
  cases op with
  | applyOp foldType params rand =>
      simp only [step, applyFold]
      split
      · exact h
      · exact Or.inl rfl
  | undoOp =>
      simp only [step, undo]
      cases hl : s.folds.getLast? with
      | none => exact h
      | some fold => exact Or.inl rfl
  | redoOp =>
      simp only [step, redo]
      cases hl : s.undoStack.getLast? with
      | none => exact h
      | some fold => exact Or.inl rfl
  | clearOp =>
      exact Or.inr ⟨rfl, rfl⟩

lemma layersConsistent_run (cfg : ShirtConfig) (fc : FoldConfig) (ops : List Op) :
    LayersConsistent fc (run cfg fc ops) := by
  have aux : ∀ (l : List Op) (s : EngineState), LayersConsistent fc s →
      LayersConsistent fc (l.foldl (step cfg fc) s) := by
    intro l
    induction l with
    | nil => intro s hs; simpa using hs
    | cons op l ih =>
        intro s hs
        exact ih (step cfg fc s op) (layersConsistent_step cfg fc s op hs)
  exact aux ops initialState (layersConsistent_initial fc)

lemma multipliersPositive_step (cfg : ShirtConfig) (fc : FoldConfig)
    (s : EngineState) (op : Op) (hop : CrumpleSafe op)
    (h : MultipliersPositive s) : MultipliersPositive (step cfg fc s op) := by
  obtain ⟨hf, hu⟩ := h
  cases op with
  | applyOp foldType params rand =>
      have hc : foldType = .crumple → params.points ≠ some [] := by
        intro hk
        subst hk
        exact hop
      simp only [step, applyFold]
      split
      · exact ⟨hf, hu⟩
      · refine ⟨?_, hu⟩
        intro f hfm
        rcases List.mem_append.mp hfm with hm | hm
        · exact hf f hm
        · rw [List.mem_singleton.mp hm]
          exact one_le_createFold_layerMultiplier cfg rand foldType params hc
  | undoOp =>
      simp only [step, undo]
      cases hl : s.folds.getLast? with
      | none => exact ⟨hf, hu⟩
      | some fold =>
          refine ⟨?_, ?_⟩
          · intro f hfm
            exact hf f ((List.dropLast_sublist s.folds).mem hfm)
          · intro f hfm
            rcases List.mem_append.mp hfm with hm | hm
            · exact hu f hm
            · rw [List.mem_singleton.mp hm]
              exact hf fold (List.mem_of_mem_getLast? (Option.mem_def.mpr hl))
  | redoOp =>
      simp only [step, redo]
      cases hl : s.undoStack.getLast? with
      | none => exact ⟨hf, hu⟩
      | some fold =>
          refine ⟨?_, ?_⟩
          · intro f hfm
            rcases List.mem_append.mp hfm with hm | hm
            · exact hf f hm
            · rw [List.mem_singleton.mp hm]
              exact hu fold (List.mem_of_mem_getLast? (Option.mem_def.mpr hl))
          · intro f hfm
            exact hu f ((List.dropLast_sublist s.undoStack).mem hfm)
  | clearOp =>
      exact ⟨fun f hfm => absurd hfm (List.not_mem_nil f),
        fun f hfm => absurd hfm (List.not_mem_nil f)⟩

lemma multipliersPositive_run (cfg : ShirtConfig) (fc : FoldConfig)
    (ops : List Op) (hops : ∀ op ∈ ops, CrumpleSafe op) :
    MultipliersPositive (run cfg fc ops) := by
  have aux : ∀ (l : List Op), (∀ op ∈ l, CrumpleSafe op) →
      ∀ (s : EngineState), MultipliersPositive s →
        MultipliersPositive (l.foldl (step cfg fc) s) := by
    intro l
    induction l with
    | nil => intro _ s hs; simpa using hs
    | cons op l ih =>
        intro hl s hs
        exact ih (fun o ho => hl o (List.mem_cons_of_mem op ho))
          (step cfg fc s op)
          (multipliersPositive_step cfg fc s op (hl op (List.mem_cons_self op l)) hs)
  exact aux ops hops initialState ⟨fun f hfm => absurd hfm (List.not_mem_nil f),
    fun f hfm => absurd hfm (List.not_mem_nil f)⟩

lemma unfoldLoop_eq_flatMap (cfg : ShirtConfig) (cosT sinT : ℚ → ℚ)
    (rands : ℕ → ℕ → ℕ → ℚ) (folds : List Fold) (dyePoints : List DyePoint) :
    ∀ n : ℕ, unfoldLoop cfg cosT sinT rands folds dyePoints n =
      ((List.range n).reverse).flatMap
        (fun i => applyUnfoldTransform cfg cosT sinT (rands i)
          (folds.getD i defaultFold) dyePoints) := by
  intro n
  induction n with
  | zero => simp [unfoldLoop]
  | succ n ih =>
      rw [unfoldLoop, ih, List.range_succ, List.reverse_append]
      simp

/-! ## Claim theorems -/

/-- Claim C4: for every query point covered by two or more recorded dye
points, `mixDyesAtPoint` folds the covering dyes' colors pairwise in recorded
order through subtractive `mixColors`, each later dye contributing with mix
ratio `calculateIntensityAtPoint` = `intensity * max(0, 1 - distance/radius)`
(the first covering dye's color is the fold's starting value). -/
theorem c4_blend_pairwise_in_order (dist : DistFn) (dyePoints : List DyePoint)
    (x y : ℚ) (c : DyePoint) (cs : List DyePoint)
    (_h2 : 2 ≤ (affectingDyes dist dyePoints x y).length)
    (hcov : affectingDyes dist dyePoints x y = c :: cs) :
    mixDyesAtPoint dist dyePoints x y =
      cs.foldl (fun result p => mixColors result p.color
        (calculateIntensityAtPoint dist x y p)) c.color := by
  unfold mixDyesAtPoint
  rw [hcov]
  rw [if_neg (List.cons_ne_nil c cs)]
  cases cs with
  | nil => rfl
  | cons c2 cs2 =>
      exact List.foldl_map
        (fun point : DyePoint =>
          ({ color := point.color,
             intensity := calculateIntensityAtPoint dist x y point } : DyeLayer))
        (fun result layer => mixColors result layer.color layer.intensity)
        (c2 :: cs2) c.color

/-- Witness for C4 at a concrete input: two dye points both covering the
query `(0,0)` under a concrete distance function. -/
theorem c4_blend_pairwise_in_order_witness :
    2 ≤ (affectingDyes witDist [witP1, witP2] 0 0).length ∧
    mixDyesAtPoint witDist [witP1, witP2] 0 0 =
      [witP2].foldl
        (fun result p => mixColors result p.color
          (calculateIntensityAtPoint witDist 0 0 p)) witP1.color :=
  ⟨by norm_num [affectingDyes, witDist, witP1, witP2, List.filter_cons],
   c4_blend_pairwise_in_order witDist [witP1, witP2] 0 0 witP1 [witP2]
     (by norm_num [affectingDyes, witDist, witP1, witP2, List.filter_cons])
     (by norm_num [affectingDyes, witDist, witP1, witP2, List.filter_cons])⟩

/-- Claim C9: a query point covered by no recorded dye point (every recorded
point's radius is exceeded by its distance to the query) mixes to pure white
`(255, 255, 255)`. -/
theorem c9_uncovered_point_is_white (dist : DistFn) (dyePoints : List DyePoint)
    (x y : ℚ) (h : ∀ p ∈ dyePoints, p.radius < dist x y p.x p.y) :
    mixDyesAtPoint dist dyePoints x y = whiteColor := by
  unfold mixDyesAtPoint
  have hnil : affectingDyes dist dyePoints x y = [] := by
    unfold affectingDyes
    rw [List.filter_eq_nil_iff]
    intro p hp
    simpa using not_le.mpr (h p hp)
  rw [hnil, if_pos rfl]

/-- Witness for C9: a single faraway dye point does not reach `(0,0)`. -/
theorem c9_uncovered_point_is_white_witness :
    (∀ p ∈ [witFar], p.radius < witDist 0 0 p.x p.y) ∧
    mixDyesAtPoint witDist [witFar] 0 0 = whiteColor :=
  ⟨by norm_num [witDist, witFar, List.forall_mem_cons],
   c9_uncovered_point_is_white witDist [witFar] 0 0
     (by norm_num [witDist, witFar, List.forall_mem_cons])⟩

/-- Claim C10: `applyDye` snapshots the layer count as
`max(1, layers.length)`, hence at least 1 even for the empty (fresh or
cleared) layers array, and the square root it is later divided by is
nonzero, so the attenuation never divides by zero. -/
theorem c10_layer_snapshot_positive (x y : ℚ) (color : Color)
    (intensity radius : ℚ) (layers : List Layer) :
    1 ≤ (applyDye x y color intensity radius layers).layerCount ∧
    Real.sqrt ((applyDye x y color intensity radius layers).layerCount : ℝ) ≠ 0 := by
  constructor
  · exact le_max_left 1 layers.length
  · have hpos : (0 : ℝ) < ((max 1 layers.length : ℕ) : ℝ) := by
      have : 0 < max 1 layers.length := lt_of_lt_of_le Nat.zero_lt_one (le_max_left _ _)
      exact_mod_cast this
    exact ne_of_gt (Real.sqrt_pos.mpr hpos)

/-- Claim C5: the rendered alpha of a dye point is driven by
`effectiveIntensity = intensity / sqrt(layerCount)` where `layerCount` is the
snapshot stored in the point; in particular intensity 80 at a snapshot of 4
layers gives effective intensity 40. -/
theorem c5_attenuation_inverse_sqrt (dyePoint : DyePoint) :
    (renderDyePoint dyePoint).centerAlpha =
      effectiveIntensity dyePoint.intensity dyePoint.layerCount / 100 * 0.8 ∧
    (dyePoint.intensity = 80 → dyePoint.layerCount = 4 →
      effectiveIntensity dyePoint.intensity dyePoint.layerCount = 40) := by
  refine ⟨rfl, ?_⟩
  intro h1 h2
  rw [h1, h2]
  unfold effectiveIntensity
  have h4 : Real.sqrt ((4 : ℕ) : ℝ) = 2 := by
    rw [show (((4 : ℕ) : ℝ)) = 2 ^ 2 by norm_num]
    exact Real.sqrt_sq (by norm_num)
  rw [h4]
  norm_num

/-- Witness for C5: the spec's scenario point, intensity 80 applied over a
4-layer snapshot. -/
theorem c5_attenuation_inverse_sqrt_witness :
    (renderDyePoint witP4).centerAlpha = effectiveIntensity 80 4 / 100 * 0.8 ∧
    effectiveIntensity 80 4 = 40 :=
  ⟨(c5_attenuation_inverse_sqrt witP4).1,
   (c5_attenuation_inverse_sqrt witP4).2 rfl rfl⟩

/-- Claim C7: `applyFold` never touches the redo buffer, whether it succeeds
or is rejected at the layer cap, so a stale redo entry left by `undo`
survives a fresh `applyFold`. -/
theorem c7_applyFold_preserves_redo_buffer (cfg : ShirtConfig) (fc : FoldConfig)
    (rand : ℕ → ℚ) (s : EngineState) (foldType : FoldKind) (params : FoldParams) :
    ((applyFold cfg fc rand s foldType params).2).undoStack = s.undoStack := by
  unfold applyFold
  split
  · rfl
  · rfl

/-- Claim C8: subtractive mixing is the identity on the first color at ratio
0, the identity on the second at ratio 1, and exactly symmetric under ratio
complement (stronger than the claimed within-rounding tolerance). -/
theorem c8_mix_ratio_identities (a b : Color) (t : ℚ)
    (_h0 : 0 ≤ t) (_h1 : t ≤ 1) :
    mixColors a b 0 = a ∧ mixColors a b 1 = b ∧
      mixColors a b t = mixColors b a (1 - t) := by
  refine ⟨?_, ?_, ?_⟩
  · cases a with
    | mk ar ag ab =>
        simp only [mixColors, rgbToCmy, cmyToRgb, Color.mk.injEq]
        refine ⟨?_, ?_, ?_⟩ <;> exact jround_eq_of_eq_intCast (by ring)
  · cases b with
    | mk br bg bb =>
        simp only [mixColors, rgbToCmy, cmyToRgb, Color.mk.injEq]
        refine ⟨?_, ?_, ?_⟩ <;> exact jround_eq_of_eq_intCast (by ring)
  · simp only [mixColors, rgbToCmy, cmyToRgb, Color.mk.injEq]
    refine ⟨?_, ?_, ?_⟩ <;> · congr 1; ring

/-- Witness for C8 at concrete colors and ratio one half. -/
theorem c8_mix_ratio_identities_witness :
    ((0 : ℚ) ≤ 1/2 ∧ (1/2 : ℚ) ≤ 1) ∧
    (mixColors witRed witBlue 0 = witRed ∧
      mixColors witRed witBlue 1 = witBlue ∧
      mixColors witRed witBlue (1/2) = mixColors witBlue witRed (1 - 1/2)) :=
  ⟨⟨by norm_num, by norm_num⟩,
   c8_mix_ratio_identities witRed witBlue (1/2) (by norm_num) (by norm_num)⟩

/-- Claim C1 (amended): for every state reached from the initial engine state
by `applyFold`/`undo`/`redo`/`clear` in which every explicitly supplied
crumple anchor-point list was nonempty, and for any cap of at least 1, the
derived effective layer count is at least 1 and equals the product of the
stack's layer multipliers clamped to the cap; an empty stack derives exactly
1 layer.  (The nonempty-anchor proviso is forced by `c1_counterexample`.) -/
theorem c1_effective_layer_count_invariant (cfg : ShirtConfig) (fc : FoldConfig)
    (ops : List Op) (hmax : 1 ≤ fc.maxLayers)
    (hops : ∀ op ∈ ops, CrumpleSafe op) :
    1 ≤ effectiveLayerCount fc (run cfg fc ops).folds ∧
    effectiveLayerCount fc (run cfg fc ops).folds =
      min (stackProduct (run cfg fc ops).folds) fc.maxLayers ∧
    ((run cfg fc ops).folds = [] →
      effectiveLayerCount fc (run cfg fc ops).folds = 1) := by
  have hmp := multipliersPositive_run cfg fc ops hops
  refine ⟨le_min (one_le_stackProduct _ hmp.1) hmax, rfl, ?_⟩
  intro hnil
  unfold effectiveLayerCount
  rw [hnil]
  show min (stackProduct []) fc.maxLayers = 1
  rw [show stackProduct [] = 1 from rfl]
  exact min_eq_left hmax

/-- Counterexample to C1 as stated: a single reachable `applyFold` of a
crumple fold with an explicitly supplied empty anchor list (accepted by the
code, since a supplied array is used as-is) yields a stack whose derived
effective layer count is 0, not at least 1. -/
theorem c1_counterexample :
    effectiveLayerCount witFc
        (run witCfg witFc [.applyOp .crumple { points := some [] } (fun _ => 0)]).folds = 0 ∧
    ¬ 1 ≤ effectiveLayerCount witFc
        (run witCfg witFc [.applyOp .crumple { points := some [] } (fun _ => 0)]).folds := by
  have h0 : effectiveLayerCount witFc
      (run witCfg witFc [.applyOp .crumple { points := some [] } (fun _ => 0)]).folds = 0 := rfl
  exact ⟨h0, by rw [h0]; decide⟩

/-- Witness for C1 at a concrete operation sequence (one spiral fold under
cap 8). -/
theorem c1_effective_layer_count_invariant_witness :
    (1 ≤ witFc.maxLayers ∧ ∀ op ∈ [Op.applyOp .spiral {} (fun _ => 0)], CrumpleSafe op) ∧
    (1 ≤ effectiveLayerCount witFc (run witCfg witFc [Op.applyOp .spiral {} (fun _ => 0)]).folds ∧
      effectiveLayerCount witFc (run witCfg witFc [Op.applyOp .spiral {} (fun _ => 0)]).folds =
        min (stackProduct (run witCfg witFc [Op.applyOp .spiral {} (fun _ => 0)]).folds)
          witFc.maxLayers ∧
      ((run witCfg witFc [Op.applyOp .spiral {} (fun _ => 0)]).folds = [] →
        effectiveLayerCount witFc
          (run witCfg witFc [Op.applyOp .spiral {} (fun _ => 0)]).folds = 1)) :=
  ⟨⟨by decide, by intro op hop; rw [List.mem_singleton.mp hop]; trivial⟩,
   c1_effective_layer_count_invariant witCfg witFc [Op.applyOp .spiral {} (fun _ => 0)]
     (by decide) (by intro op hop; rw [List.mem_singleton.mp hop]; trivial)⟩

/-- Claim C2 (amended): the unfolder processes folds from the most recently
applied to the first, and each fold's transform is applied to the original
recorded dye points only — the per-fold rendered sets are concatenated in
reverse stack order and do not compound.  (Non-compounding is forced by
`c2_counterexample`.) -/
theorem c2_unfold_reverse_order_originals_only (cfg : ShirtConfig)
    (cosT sinT : ℚ → ℚ) (rands : ℕ → ℕ → ℕ → ℚ) (folds : List Fold)
    (dyePoints : List DyePoint) (_h : folds ≠ []) :
    unfoldPattern cfg cosT sinT rands folds dyePoints =
      ((List.range folds.length).reverse).flatMap
        (fun i => applyUnfoldTransform cfg cosT sinT (rands i)
          (folds.getD i defaultFold) dyePoints) :=
  unfoldLoop_eq_flatMap cfg cosT sinT rands folds dyePoints folds.length

/-- Counterexample to C2 as stated: with the two-fold stack
`[witFoldH, witFoldV]` and one dye point at `(1,2)`, the compounding reading
of the spec renders the doubly-mirrored position `(39,18)`, but the code's
unfolder never renders it (each fold transforms only the original points). -/
theorem c2_counterexample :
    ((39 : ℚ), (18 : ℚ)) ∈ (specUnfoldCompound witCfg (fun _ => 0) (fun _ => 0) (fun _ => 0)
        [witFoldH, witFoldV] [witDp]).map (fun q => (q.x, q.y)) ∧
    ((39 : ℚ), (18 : ℚ)) ∉ (unfoldPattern witCfg (fun _ => 0) (fun _ => 0) (fun _ _ _ => 0)
        [witFoldH, witFoldV] [witDp]).map (fun q => (q.x, q.y)) := by
  constructor
  · norm_num [specUnfoldCompound, specFoldCopies, witFoldH, witFoldV, witDp, toRendered,
      mirrorPoint, witCfg]
  · norm_num [unfoldPattern, unfoldLoop, applyUnfoldTransform, unfoldAccordion,
      renderPointWithSymmetry, mirrorPoint, witFoldH, witFoldV, witDp, toRendered, witCfg]

/-- Witness for C2 at a concrete nonempty fold stack. -/
theorem c2_unfold_reverse_order_originals_only_witness :
    ([witFoldH] ≠ ([] : List Fold)) ∧
    unfoldPattern witCfg (fun _ => 0) (fun _ => 0) (fun _ _ _ => 0) [witFoldH] [witDp] =
      ((List.range ([witFoldH] : List Fold).length).reverse).flatMap
        (fun i => applyUnfoldTransform witCfg (fun _ => 0) (fun _ => 0) ((fun _ _ _ => (0:ℚ)) i)
          (([witFoldH] : List Fold).getD i defaultFold) [witDp]) :=
  ⟨List.cons_ne_nil _ _,
   c2_unfold_reverse_order_originals_only witCfg (fun _ => 0) (fun _ => 0) (fun _ _ _ => 0)
     [witFoldH] [witDp] (List.cons_ne_nil _ _)⟩

/-- Claim C3 (amended): an accordion fold stores exactly `foldCount` crease
lines.  Vertical folds match the claim in full: lines sit at multiples of
`bodyWidth / (foldCount+1)` from the printable body's left edge, strictly
inside the printable extent.  Horizontal folds space lines by
`HEIGHT / (foldCount+1)` — the *full configured garment height*, not the
printable body height — below the printable top edge, so they need not stay
clear of the printable bottom edge.  (The horizontal deviation is forced by
`c3_counterexample`.) -/
theorem c3_accordion_lines (cfg : ShirtConfig) (n : ℕ) (hw : 0 < cfg.width) :
    ((calculateAccordionLines cfg .vertical n).length = n ∧
      ∀ line ∈ calculateAccordionLines cfg .vertical n,
        ∃ i : ℕ, 1 ≤ i ∧ i ≤ n ∧
          line.x1 = (shirtBody cfg).x + (i : ℚ) * ((shirtBody cfg).width / ((n : ℚ) + 1)) ∧
          (shirtBody cfg).x < line.x1 ∧
          line.x1 < (shirtBody cfg).x + (shirtBody cfg).width) ∧
    ((calculateAccordionLines cfg .horizontal n).length = n ∧
      ∀ line ∈ calculateAccordionLines cfg .horizontal n,
        ∃ i : ℕ, 1 ≤ i ∧ i ≤ n ∧
          line.y1 = (shirtBody cfg).y + (i : ℚ) * (cfg.height / ((n : ℚ) + 1))) := by
  have hn1 : (0 : ℚ) < (n : ℚ) + 1 := by positivity
  refine ⟨⟨?_, ?_⟩, ⟨?_, ?_⟩⟩
  · simp only [calculateAccordionLines, List.length_map, List.length_range]
  · intro line hline
    simp only [calculateAccordionLines, List.mem_map, List.mem_range] at hline
    obtain ⟨j, hj, rfl⟩ := hline
    refine ⟨j + 1, Nat.le_add_left 1 j, Nat.succ_le_of_lt hj, ?_, ?_, ?_⟩
    · show cfg.centerX - cfg.width / 2 + cfg.width / ((n : ℚ) + 1) * ((j : ℚ) + 1) =
        (shirtBody cfg).x + ((j + 1 : ℕ) : ℚ) * ((shirtBody cfg).width / ((n : ℚ) + 1))
      simp only [shirtBody]
      push_cast
      ring
    · show (shirtBody cfg).x <
        cfg.centerX - cfg.width / 2 + cfg.width / ((n : ℚ) + 1) * ((j : ℚ) + 1)
      simp only [shirtBody]
      have hpos : (0 : ℚ) < cfg.width / ((n : ℚ) + 1) * ((j : ℚ) + 1) := by positivity
      linarith
    · show cfg.centerX - cfg.width / 2 + cfg.width / ((n : ℚ) + 1) * ((j : ℚ) + 1) <
        (shirtBody cfg).x + (shirtBody cfg).width
      simp only [shirtBody]
      have hjn : ((j : ℚ) + 1) < (n : ℚ) + 1 := by exact_mod_cast Nat.succ_lt_succ hj
      have hstep : cfg.width / ((n : ℚ) + 1) * ((j : ℚ) + 1) <
          cfg.width / ((n : ℚ) + 1) * ((n : ℚ) + 1) := by
        apply mul_lt_mul_of_pos_left hjn
        positivity
      have heq : cfg.width / ((n : ℚ) + 1) * ((n : ℚ) + 1) = cfg.width := by
        field_simp
      linarith
  · simp only [calculateAccordionLines, List.length_map, List.length_range]
  · intro line hline
    simp only [calculateAccordionLines, List.mem_map, List.mem_range] at hline
    obtain ⟨j, hj, rfl⟩ := hline
    refine ⟨j + 1, Nat.le_add_left 1 j, Nat.succ_le_of_lt hj, ?_⟩
    show cfg.centerY - cfg.height / 2 + 80 + cfg.height / ((n : ℚ) + 1) * ((j : ℚ) + 1) =
      (shirtBody cfg).y + ((j + 1 : ℕ) : ℚ) * (cfg.height / ((n : ℚ) + 1))
    simp only [shirtBody]
    push_cast
    ring

/-- Counterexample to C3 as stated: under the concrete configuration
`witCfg` (height 160, so printable body height 80), a horizontal accordion
fold with `foldCount = 1` stores its single crease line at `y = 80`, which
lies exactly on the bottom edge of the printable body and is not at the
claimed multiple `bodyY + 1 * (bodyHeight / 2) = 40` of the printable
extent. -/
theorem c3_counterexample :
    (createAccordionFold witCfg { direction := some .horizontal, numFolds := some 1 }).lines =
      [{ x1 := -50, y1 := 80, x2 := 50, y2 := 80 }] ∧
    (shirtBody witCfg).y + (shirtBody witCfg).height = 80 ∧
    ¬ ((80 : ℚ) = (shirtBody witCfg).y + (1 : ℚ) * ((shirtBody witCfg).height / (1 + 1))) := by
  refine ⟨?_, ?_, ?_⟩
  · norm_num [createAccordionFold, calculateAccordionLines, orDefaultNat, witCfg,
      List.range_succ]
  · norm_num [shirtBody, witCfg]
  · norm_num [shirtBody, witCfg]

/-- Witness for C3 at the concrete configuration with `foldCount = 2`. -/
theorem c3_accordion_lines_witness :
    (0 : ℚ) < witCfg.width ∧
    (((calculateAccordionLines witCfg .vertical 2).length = 2 ∧
      ∀ line ∈ calculateAccordionLines witCfg .vertical 2,
        ∃ i : ℕ, 1 ≤ i ∧ i ≤ 2 ∧
          line.x1 = (shirtBody witCfg).x +
            (i : ℚ) * ((shirtBody witCfg).width / ((2 : ℕ) + 1 : ℚ)) ∧
          (shirtBody witCfg).x < line.x1 ∧
          line.x1 < (shirtBody witCfg).x + (shirtBody witCfg).width) ∧
    ((calculateAccordionLines witCfg .horizontal 2).length = 2 ∧
      ∀ line ∈ calculateAccordionLines witCfg .horizontal 2,
        ∃ i : ℕ, 1 ≤ i ∧ i ≤ 2 ∧
          line.y1 = (shirtBody witCfg).y + (i : ℚ) * (witCfg.height / ((2 : ℕ) + 1 : ℚ)))) :=
  ⟨by norm_num [witCfg], c3_accordion_lines witCfg 2 (by norm_num [witCfg])⟩

/-- Claim C6: on any reachable state with a nonempty fold stack, `undo`
followed immediately by `redo` restores the fold stack exactly (same folds,
same order, same parameters) and restores the derived `layers` sequence to
its prior value. -/
theorem c6_undo_redo_roundtrip (cfg : ShirtConfig) (fc : FoldConfig)
    (ops : List Op) (h : (run cfg fc ops).folds ≠ []) :
    ((redo fc (undo fc (run cfg fc ops)).2).2).folds = (run cfg fc ops).folds ∧
    ((redo fc (undo fc (run cfg fc ops)).2).2).layers = (run cfg fc ops).layers := by
  set s := run cfg fc ops with hs
  rcases List.eq_nil_or_concat' s.folds with hn | ⟨L, a, hLa⟩
  · exact absurd hn h
  have hg : s.folds.getLast? = some a := by rw [hLa]; exact List.getLast?_concat L
  have hd : s.folds.dropLast = L := by rw [hLa]; exact List.dropLast_concat
  have hundo : (undo fc s).2 =
      { folds := L, undoStack := s.undoStack ++ [a], layers := updateLayers fc L } := by
    simp only [undo, hg, hd]
  have hg2 : (s.undoStack ++ [a]).getLast? = some a := List.getLast?_concat _
  have hd2 : (s.undoStack ++ [a]).dropLast = s.undoStack := List.dropLast_concat
  have hredo : (redo fc (undo fc s).2).2 =
      { folds := L ++ [a], undoStack := s.undoStack, layers := updateLayers fc (L ++ [a]) } := by
    rw [hundo]
    simp only [redo, hg2, hd2]
  have hlay : s.layers = updateLayers fc s.folds := by
    rcases layersConsistent_run cfg fc ops with hc | ⟨hn2, _⟩
    · exact hc
    · exact absurd hn2 h
  rw [hredo, ← hLa]
  exact ⟨rfl, hlay.symm⟩

/-- Witness for C6 on the one-diagonal-fold state. -/
theorem c6_undo_redo_roundtrip_witness :
    (run witCfg witFc [Op.applyOp .diagonal {} (fun _ => 0)]).folds ≠ [] ∧
    (((redo witFc (undo witFc
          (run witCfg witFc [Op.applyOp .diagonal {} (fun _ => 0)])).2).2).folds =
        (run witCfg witFc [Op.applyOp .diagonal {} (fun _ => 0)]).folds ∧
      ((redo witFc (undo witFc
          (run witCfg witFc [Op.applyOp .diagonal {} (fun _ => 0)])).2).2).layers =
        (run witCfg witFc [Op.applyOp .diagonal {} (fun _ => 0)]).layers) :=
  ⟨by decide,
   c6_undo_redo_roundtrip witCfg witFc [Op.applyOp .diagonal {} (fun _ => 0)] (by decide)⟩

end TieDye
